import Mathlib

/- Formal model of the GhostFeed content script (src/src/contentScript.js).
   JS timestamps (milliseconds since epoch) are modelled as Int, JS numbers
   holding playback rates as Rat, and the relevant DOM state explicitly:
   the body marker attributes, the thumbnail images, and the playback rates
   of the video elements currently in the document. -/

/-- Settings record, mirroring the keys of DEFAULT_SETTINGS
    (contentScript.js lines 12-23). -/
structure Settings where
  masterEnabled : Bool
  hideHome : Bool
  hideShorts : Bool
  hideComments : Bool
  hideSidebar : Bool
  hideEndscreen : Bool
  hideRecs : Bool
  hideGuide : Bool
  blurThumbs : Bool
  playbackRate : ℚ
  deriving DecidableEq

/-- The literal DEFAULT_SETTINGS object (lines 12-23). -/
def DEFAULT_SETTINGS : Settings :=
  { masterEnabled := true, hideHome := true, hideShorts := true,
    hideComments := true, hideSidebar := true, hideEndscreen := true,
    hideRecs := true, hideGuide := false, blurThumbs := false,
    playbackRate := 1 }

/-- Numeric and timing constants of SPEED_CONFIG (lines 36-44); the DOM id
    strings are irrelevant to the claims and omitted. -/
structure SpeedConfig where
  presetSpeeds : List ℚ
  customRangeMin : ℚ
  customRangeMax : ℚ
  gracePeriod : ℤ
  watcherInterval : ℤ

/-- The literal SPEED_CONFIG object (lines 36-44). -/
def SPEED_CONFIG : SpeedConfig :=
  { presetSpeeds := [1/4, 1/2, 3/4, 1, 5/4, 3/2, 7/4, 2, 5/2, 3, 4],
    customRangeMin := 1/10, customRangeMax := 16,
    gracePeriod := 5000, watcherInterval := 1000 }

/-- Presence of the data-ghostfeed marker attributes on document.body:
    the master marker plus one marker per entry of BODY_FLAG_ATTRIBUTES
    (lines 25-34). Presence is recorded as a Bool. -/
structure BodyMarkers where
  master : Bool
  hideHome : Bool
  hideShorts : Bool
  hideComments : Bool
  hideSidebar : Bool
  hideEndscreen : Bool
  hideRecs : Bool
  hideGuide : Bool
  blurThumbs : Bool
  deriving DecidableEq

/-- One thumbnail image element: whether it matches the thumbnail selectors,
    whether closest() finds a hover parent, the data-ghostfeed-blurred marker,
    whether style.filter currently holds the blur filter, and the
    data-ghostfeed-hover-added marker on its parent. -/
structure Image where
  isThumbnail : Bool
  hasParent : Bool
  blurred : Bool
  filterBlur : Bool
  hoverAdded : Bool
  deriving DecidableEq

/-- The document state the content script reads and writes: body markers,
    the image elements, and the playbackRate of each video element in
    document order (querySelector picks the head of the list). -/
structure Doc where
  body : BodyMarkers
  images : List Image
  videos : List ℚ
  deriving DecidableEq

/-- The transient interaction state (lines 49-50):
    lastUserInteractionTimestamp and hasUserOverriddenSpeed. -/
structure InteractionState where
  lastUserInteractionTimestamp : ℤ
  hasUserOverriddenSpeed : Bool
  deriving DecidableEq

/-- Effect of applyThumbnailBlur (lines 93-130) on a single image: images
    matching a thumbnail selector and not yet carrying the blurred marker get
    the blur filter and the marker; their parent, when present and not yet
    marked, gets hover handlers and the hover-added marker. -/
def blurImage (img : Image) : Image :=
  if img.isThumbnail && !img.blurred then
    let img2 : Image := { img with filterBlur := true, blurred := true }
    if img2.hasParent && !img2.hoverAdded then { img2 with hoverAdded := true }
    else img2
  else img

/-- applyThumbnailBlur (lines 93-130) over the whole document. -/
def applyThumbnailBlur (doc : Doc) : Doc :=
  { doc with images := doc.images.map blurImage }

/-- Effect of removeThumbnailBlur (lines 135-147) on a single image: every
    image carrying the blurred marker has its filter cleared and the marker
    removed; every hover-added marker is removed. -/
def unblurImage (img : Image) : Image :=
  let img2 : Image :=
    if img.blurred then { img with filterBlur := false, blurred := false }
    else img
  if img2.hoverAdded then { img2 with hoverAdded := false } else img2

/-- removeThumbnailBlur (lines 135-147) over the whole document. -/
def removeThumbnailBlur (doc : Doc) : Doc :=
  { doc with images := doc.images.map unblurImage }

/-- applyBodyFlags (lines 58-88): sets or removes the master marker from
    masterEnabled, sets each feature marker to enabled AND flag (removing
    every marker when disabled), then applies or removes the thumbnail blur
    according to enabled AND blurThumbs. -/
def applyBodyFlags (settings : Settings) (doc : Doc) : Doc :=
  let isEnabled := settings.masterEnabled
  let body : BodyMarkers :=
    { master := isEnabled,
      hideHome := isEnabled && settings.hideHome,
      hideShorts := isEnabled && settings.hideShorts,
      hideComments := isEnabled && settings.hideComments,
      hideSidebar := isEnabled && settings.hideSidebar,
      hideEndscreen := isEnabled && settings.hideEndscreen,
      hideRecs := isEnabled && settings.hideRecs,
      hideGuide := isEnabled && settings.hideGuide,
      blurThumbs := isEnabled && settings.blurThumbs }
  let doc2 : Doc := { doc with body := body }
  if isEnabled && settings.blurThumbs then applyThumbnailBlur doc2
  else removeThumbnailBlur doc2

/-- applySettingsImmediately (lines 283-303): applies body flags; when the
    master flag is off, resets every video to rate 1 and returns. Otherwise
    writes the stored rate to the first video when that rate is truthy and
    not 1, else syncs currentSettings.playbackRate (mutating only that field)
    from the first video. Returns the new document together with the possibly
    updated currentSettings. -/
def applySettingsImmediately (settings : Settings) (doc : Doc) :
    Doc × Settings :=
  let doc2 := applyBodyFlags settings doc
  if settings.masterEnabled = false then
    ({ doc2 with videos := doc2.videos.map (fun _ => (1 : ℚ)) }, settings)
  else
    match doc2.videos with
    | [] => (doc2, settings)
    | v :: rest =>
      if settings.playbackRate ≠ 0 ∧ settings.playbackRate ≠ 1 then
        ({ doc2 with videos := settings.playbackRate :: rest }, settings)
      else
        (doc2, { settings with playbackRate := v })

/-- The clamp of line 318: Math.max(0.0625, Math.min(16, playbackRate)). -/
def clampRate (playbackRate : ℚ) : ℚ :=
  max (1/16) (min 16 playbackRate)

/-- The enforcement-tick suppression check of lines 313-316: an element is
    skipped when hasUserOverriddenSpeed is set and the time elapsed since the
    last user interaction is below SPEED_CONFIG.gracePeriod. -/
def enforcerSuppresses (ist : InteractionState) (now : ℤ) : Bool :=
  ist.hasUserOverriddenSpeed &&
    decide (now - ist.lastUserInteractionTimestamp < SPEED_CONFIG.gracePeriod)

/-- The ChangeBridge suppression check of handleStorageChanges lines
    1036-1037: the handler skips the immediate re-apply when
    hasUserOverriddenSpeed is set and the elapsed time is below a hardcoded
    3000 ms window. -/
def changeBridgeSuppresses (ist : InteractionState) (now : ℤ) : Bool :=
  ist.hasUserOverriddenSpeed &&
    decide (now - ist.lastUserInteractionTimestamp < 3000)

/-- The per-video loop body of applyPlaybackRateToVideos (lines 310-324),
    threading the mutable hasUserOverriddenSpeed flag through the iteration:
    a suppressed element is left alone; otherwise the clamped target is
    written (and the override flag cleared) exactly when the current rate
    differs from it by more than 0.01. -/
def tickVideos (now lastTS : ℤ) (playbackRate : ℚ) :
    Bool → List ℚ → List ℚ × Bool
  | ov, [] => ([], ov)
  | ov, v :: rest =>
    if enforcerSuppresses
        { lastUserInteractionTimestamp := lastTS,
          hasUserOverriddenSpeed := ov } now then
      let r := tickVideos now lastTS playbackRate ov rest
      (v :: r.1, r.2)
    else if |v - clampRate playbackRate| > 1/100 then
      let r := tickVideos now lastTS playbackRate false rest
      (clampRate playbackRate :: r.1, r.2)
    else
      let r := tickVideos now lastTS playbackRate ov rest
      (v :: r.1, r.2)

/-- applyPlaybackRateToVideos (lines 307-325): a no-op when the master flag
    is off, otherwise runs the per-video enforcement over every video,
    returning the new video rates and interaction state. -/
def applyPlaybackRateToVideos (masterEnabled : Bool) (now : ℤ)
    (playbackRate : ℚ) (ist : InteractionState) (videos : List ℚ) :
    List ℚ × InteractionState :=
  if masterEnabled = false then (videos, ist)
  else
    let r := tickVideos now ist.lastUserInteractionTimestamp playbackRate
      ist.hasUserOverriddenSpeed videos
    (r.1, { ist with hasUserOverriddenSpeed := r.2 })

/-- Acceptance test of the free-form speed entry (lines 700-702, likewise
    686-687 and 731-732): the parsed value (none models NaN) is accepted
    exactly when it is a number within the inclusive custom range. -/
def customInputAccepts (parsed : Option ℚ) : Bool :=
  match parsed with
  | none => false
  | some speed =>
    decide (SPEED_CONFIG.customRangeMin ≤ speed) &&
      decide (speed ≤ SPEED_CONFIG.customRangeMax)

/-- Model of a string stored in localStorage, by the two observations the
    fallback loader makes of it: its parseFloat result (none models NaN) and
    whether it is the literal text true. -/
structure StoredStr where
  parsesTo : Option ℚ
  isTrueLiteral : Bool
  deriving DecidableEq

/-- String form of a JS boolean (toString in line 263): parseFloat of it is
    NaN, and it equals the literal true exactly when the boolean is true. -/
def boolToStored (b : Bool) : StoredStr :=
  { parsesTo := none, isTrueLiteral := b }

/-- Decimal string form of a finite JS number (toString in line 263): it
    parses back to the same number (the JS number-to-string round trip) and
    is never the literal text true. -/
def numToStored (q : ℚ) : StoredStr :=
  { parsesTo := some q, isTrueLiteral := false }

/-- The ghostfeed-prefixed localStorage keys the script uses: one slot per
    settings key, none when the key is unset. -/
structure FallbackStore where
  masterEnabled : Option StoredStr
  hideHome : Option StoredStr
  hideShorts : Option StoredStr
  hideComments : Option StoredStr
  hideSidebar : Option StoredStr
  hideEndscreen : Option StoredStr
  hideRecs : Option StoredStr
  hideGuide : Option StoredStr
  blurThumbs : Option StoredStr
  playbackRate : Option StoredStr
  deriving DecidableEq

/-- The store with every key unset. -/
def emptyFallbackStore : FallbackStore :=
  { masterEnabled := none, hideHome := none, hideShorts := none,
    hideComments := none, hideSidebar := none, hideEndscreen := none,
    hideRecs := none, hideGuide := none, blurThumbs := none,
    playbackRate := none }

/-- Boolean branch of loadFromLocalStorageFallback (lines 233-244): an unset
    key keeps the default; a set key becomes the comparison with the literal
    text true. -/
def readBoolKey : Option StoredStr → Bool → Bool
  | none, dflt => dflt
  | some s, _ => s.isTrueLiteral

/-- playbackRate branch of loadFromLocalStorageFallback (lines 236-240): an
    unset key keeps the default; a set key is parsed and used only when the
    parse is not NaN and the value is strictly positive. -/
def readRateKey : Option StoredStr → ℚ → ℚ
  | none, dflt => dflt
  | some s, dflt =>
    match s.parsesTo with
    | none => dflt
    | some rate => if rate > 0 then rate else dflt

/-- loadFromLocalStorageFallback (lines 228-253), reading each key of
    DEFAULT_SETTINGS out of the fallback store. -/
def loadFromLocalStorageFallback (st : FallbackStore) : Settings :=
  { masterEnabled := readBoolKey st.masterEnabled DEFAULT_SETTINGS.masterEnabled,
    hideHome := readBoolKey st.hideHome DEFAULT_SETTINGS.hideHome,
    hideShorts := readBoolKey st.hideShorts DEFAULT_SETTINGS.hideShorts,
    hideComments := readBoolKey st.hideComments DEFAULT_SETTINGS.hideComments,
    hideSidebar := readBoolKey st.hideSidebar DEFAULT_SETTINGS.hideSidebar,
    hideEndscreen := readBoolKey st.hideEndscreen DEFAULT_SETTINGS.hideEndscreen,
    hideRecs := readBoolKey st.hideRecs DEFAULT_SETTINGS.hideRecs,
    hideGuide := readBoolKey st.hideGuide DEFAULT_SETTINGS.hideGuide,
    blurThumbs := readBoolKey st.blurThumbs DEFAULT_SETTINGS.blurThumbs,
    playbackRate := readRateKey st.playbackRate DEFAULT_SETTINGS.playbackRate }

/-- saveToLocalStorageBackup (lines 259-269): every settings key is
    serialized with toString and written to its localStorage slot. -/
def saveToLocalStorageBackup (settings : Settings) : FallbackStore :=
  { masterEnabled := some (boolToStored settings.masterEnabled),
    hideHome := some (boolToStored settings.hideHome),
    hideShorts := some (boolToStored settings.hideShorts),
    hideComments := some (boolToStored settings.hideComments),
    hideSidebar := some (boolToStored settings.hideSidebar),
    hideEndscreen := some (boolToStored settings.hideEndscreen),
    hideRecs := some (boolToStored settings.hideRecs),
    hideGuide := some (boolToStored settings.hideGuide),
    blurThumbs := some (boolToStored settings.blurThumbs),
    playbackRate := some (numToStored settings.playbackRate) }

/-- The backend conditions distinguished by loadSettingsFromStorage
    (lines 193-222): the primary chrome.storage.sync read succeeds with a
    default-filled result; it reports lastError; the capability probe says it
    is unavailable; or the localStorage fallback itself throws (the catch of
    lines 249-252). -/
inductive BackendCondition
  | primaryAvailable (result : Settings)
  | primaryError
  | primaryUnavailable
  | fallbackThrows

/-- loadSettingsFromStorage (lines 193-222): a successful primary read
    resolves with its result and mirrors it into the fallback store
    (write-through, line 208); a primary error or unavailability resolves
    with the fallback read; a throwing fallback resolves with the defaults.
    The function is total: it resolves in every backend condition. -/
def loadSettings (cond : BackendCondition) (st : FallbackStore) :
    Settings × FallbackStore :=
  match cond with
  | .primaryAvailable result => (result, saveToLocalStorageBackup result)
  | .primaryError => (loadFromLocalStorageFallback st, st)
  | .primaryUnavailable => (loadFromLocalStorageFallback st, st)
  | .fallbackThrows => (DEFAULT_SETTINGS, st)

/-- The nine boolean settings keys. -/
inductive BoolKey
  | masterEnabled
  | hideHome
  | hideShorts
  | hideComments
  | hideSidebar
  | hideEndscreen
  | hideRecs
  | hideGuide
  | blurThumbs
  deriving DecidableEq

/-- Projection of a boolean settings key. -/
def Settings.boolKey (s : Settings) : BoolKey → Bool
  | .masterEnabled => s.masterEnabled
  | .hideHome => s.hideHome
  | .hideShorts => s.hideShorts
  | .hideComments => s.hideComments
  | .hideSidebar => s.hideSidebar
  | .hideEndscreen => s.hideEndscreen
  | .hideRecs => s.hideRecs
  | .hideGuide => s.hideGuide
  | .blurThumbs => s.blurThumbs

/-- Projection of a boolean key slot of the fallback store. -/
def FallbackStore.boolKey (st : FallbackStore) : BoolKey → Option StoredStr
  | .masterEnabled => st.masterEnabled
  | .hideHome => st.hideHome
  | .hideShorts => st.hideShorts
  | .hideComments => st.hideComments
  | .hideSidebar => st.hideSidebar
  | .hideEndscreen => st.hideEndscreen
  | .hideRecs => st.hideRecs
  | .hideGuide => st.hideGuide
  | .blurThumbs => st.blurThumbs

/-- setVideoSpeed (lines 805-877), restricted to its state effects: when a
    video exists and the speed validates (a number, not NaN, strictly
    positive), it stamps the interaction time, sets the override flag, writes
    the rate to the first video and overwrites currentSettings.playbackRate
    in place; otherwise it changes nothing. Persistence and UI updates are
    side channels not represented here. -/
def setVideoSpeed (now : ℤ) (speed : ℚ) (settings : Settings)
    (ist : InteractionState) (videos : List ℚ) :
    Settings × InteractionState × List ℚ :=
  match videos with
  | [] => (settings, ist, [])
  | v :: rest =>
    if speed ≤ 0 then (settings, ist, v :: rest)
    else
      ({ settings with playbackRate := speed },
       { lastUserInteractionTimestamp := now, hasUserOverriddenSpeed := true },
       speed :: rest)

/-- The body marker state with every marker absent. -/
def allOffMarkers : BodyMarkers :=
  { master := false, hideHome := false, hideShorts := false,
    hideComments := false, hideSidebar := false, hideEndscreen := false,
    hideRecs := false, hideGuide := false, blurThumbs := false }

/-- A sample settings value with the master flag off, for witnesses. -/
def sampleOffSettings : Settings :=
  { DEFAULT_SETTINGS with masterEnabled := false, blurThumbs := true }

/-- A sample document with one blurred thumbnail and one fast video, for
    witnesses. -/
def sampleDoc : Doc :=
  { body := { master := true, hideHome := true, hideShorts := true,
              hideComments := true, hideSidebar := true,
              hideEndscreen := true, hideRecs := true, hideGuide := true,
              blurThumbs := true },
    images := [{ isThumbnail := true, hasParent := true, blurred := true,
                 filterBlur := true, hoverAdded := true }],
    videos := [2] }

/-- A sample fallback store holding the false literal for masterEnabled and
    a positive rate text, for witnesses. -/
def sampleStore : FallbackStore :=
  { emptyFallbackStore with
      masterEnabled := some (boolToStored false),
      playbackRate := some (numToStored 3) }

/-- A sample valid snapshot with a non-default rate, for witnesses. -/
def sampleSnapshot : Settings :=
  { masterEnabled := true, hideHome := false, hideShorts := true,
    hideComments := false, hideSidebar := true, hideEndscreen := false,
    hideRecs := true, hideGuide := true, blurThumbs := true,
    playbackRate := 3 }


/-- During the grace window an active override suppresses every element:
    the tick leaves the video list and the override flag untouched. -/
theorem tickVideos_skip (now lastTS : ℤ) (rate : ℚ)
    (h : now - lastTS < SPEED_CONFIG.gracePeriod) :
    ∀ videos : List ℚ, tickVideos now lastTS rate true videos = (videos, true) := by
  intro videos
  induction videos with
  | nil => rfl
  | cons v rest ih =>
    simp [tickVideos, enforcerSuppresses, decide_eq_true h, ih]

/-- Every rate present after a tick is either an original rate or the
    clamped target. -/
theorem tickVideos_mem (now lastTS : ℤ) (rate : ℚ) :
    ∀ (ov : Bool) (videos : List ℚ),
      ∀ w ∈ (tickVideos now lastTS rate ov videos).1,
        w ∈ videos ∨ w = clampRate rate := by
  intro ov videos
  induction videos generalizing ov with
  | nil => intro w hw; simp [tickVideos] at hw
  | cons v rest ih =>
    intro w hw
    simp only [tickVideos] at hw
    by_cases h1 : enforcerSuppresses
        { lastUserInteractionTimestamp := lastTS,
          hasUserOverriddenSpeed := ov } now = true
    · rw [if_pos h1] at hw
      rcases List.mem_cons.mp hw with h | h
      · exact Or.inl (h ▸ List.mem_cons_self v rest)
      · rcases ih ov w h with h2 | h2
        · exact Or.inl (List.mem_cons_of_mem v h2)
        · exact Or.inr h2
    · rw [if_neg h1] at hw
      by_cases h2 : |v - clampRate rate| > 1/100
      · rw [if_pos h2] at hw
        rcases List.mem_cons.mp hw with h | h
        · exact Or.inr h
        · rcases ih false w h with h3 | h3
          · exact Or.inl (List.mem_cons_of_mem v h3)
          · exact Or.inr h3
      · rw [if_neg h2] at hw
        rcases List.mem_cons.mp hw with h | h
        · exact Or.inl (h ▸ List.mem_cons_self v rest)
        · rcases ih ov w h with h3 | h3
          · exact Or.inl (List.mem_cons_of_mem v h3)
          · exact Or.inr h3

/-- When no suppression applies initially and every video already sits
    within epsilon of the clamped target, a tick changes nothing. -/
theorem tickVideos_noop (now lastTS : ℤ) (rate : ℚ) :
    ∀ (ov : Bool) (videos : List ℚ),
      enforcerSuppresses
        { lastUserInteractionTimestamp := lastTS,
          hasUserOverriddenSpeed := ov } now = false →
      (∀ v ∈ videos, ¬ (|v - clampRate rate| > 1/100)) →
      tickVideos now lastTS rate ov videos = (videos, ov) := by
  intro ov videos
  induction videos generalizing ov with
  | nil => intro _ _; rfl
  | cons v rest ih =>
    intro hs hcl
    have hv : ¬ (|v - clampRate rate| > 1/100) :=
      hcl v (List.mem_cons_self v rest)
    have hrest : ∀ u ∈ rest, ¬ (|u - clampRate rate| > 1/100) :=
      fun u hu => hcl u (List.mem_cons_of_mem v hu)
    simp only [tickVideos]
    rw [if_neg (by simp [hs]), if_neg hv, ih ov hs hrest]

/-- The override flag goes from set to cleared only when the tick actually
    writes a new rate to some element. -/
theorem tickVideos_clear_means_write (now lastTS : ℤ) (rate : ℚ) :
    ∀ (ov : Bool) (videos : List ℚ),
      (tickVideos now lastTS rate ov videos).2 = false → ov = true →
      (tickVideos now lastTS rate ov videos).1 ≠ videos := by
  intro ov videos
  induction videos generalizing ov with
  | nil =>
    intro hflag hov
    subst hov
    simp [tickVideos] at hflag
  | cons v rest ih =>
    intro hflag hov
    subst hov
    simp only [tickVideos] at hflag ⊢
    by_cases h1 : enforcerSuppresses
        { lastUserInteractionTimestamp := lastTS,
          hasUserOverriddenSpeed := true } now = true
    · rw [if_pos h1] at hflag ⊢
      intro heq
      have htl : (tickVideos now lastTS rate true rest).1 = rest :=
        (List.cons.injEq _ _ _ _ ▸ heq).2
      exact ih true hflag rfl htl
    · rw [if_neg h1] at hflag ⊢
      by_cases h2 : |v - clampRate rate| > 1/100
      · rw [if_pos h2] at hflag ⊢
        intro heq
        have hhead : clampRate rate = v := (List.cons.injEq _ _ _ _ ▸ heq).1
        rw [hhead, sub_self, abs_zero] at h2
        norm_num at h2
      · rw [if_neg h2] at hflag ⊢
        intro heq
        have htl : (tickVideos now lastTS rate true rest).1 = rest :=
          (List.cons.injEq _ _ _ _ ▸ heq).2
        exact ih true hflag rfl htl

/-- Removing blur clears the blurred marker on every image. -/
theorem unblurImage_blurred (img : Image) :
    (unblurImage img).blurred = false := by
  by_cases h : img.blurred <;> by_cases h2 : img.hoverAdded <;>
    simp [unblurImage, h, h2]

/-- Removing blur clears both marker and filter of a marked image. -/
theorem unblurImage_of_marked (img : Image) (h : img.blurred = true) :
    (unblurImage img).blurred = false ∧ (unblurImage img).filterBlur = false := by
  by_cases h2 : img.hoverAdded <;> simp [unblurImage, h, h2]

/-- Pointwise relation between a list of images and its unblurred form:
    every previously marked image has marker and filter cleared. -/
theorem forall2_unblur (l : List Image) :
    List.Forall₂ (fun b a => b.blurred = true →
      a.blurred = false ∧ a.filterBlur = false) l (l.map unblurImage) := by
  induction l with
  | nil => exact List.Forall₂.nil
  | cons i rest ih =>
    exact List.Forall₂.cons (fun hb => unblurImage_of_marked i hb) ih

/-- With the master flag off, applyBodyFlags removes every marker and
    unblurs every image, leaving the videos untouched. -/
theorem applyBodyFlags_master_off (settings : Settings) (doc : Doc)
    (h : settings.masterEnabled = false) :
    applyBodyFlags settings doc
      = { body := allOffMarkers, images := doc.images.map unblurImage,
          videos := doc.videos } := by
  simp [applyBodyFlags, h, removeThumbnailBlur, allOffMarkers]

/-- The clamped target of a stored rate of 1 is 1. -/
theorem clampRate_one : clampRate 1 = 1 := by
  rw [clampRate, min_eq_right (by norm_num : (1:ℚ) ≤ 16),
    max_eq_right (by norm_num : (1/16:ℚ) ≤ 1)]

/-- C1: grace window. For every enforcement tick over the media elements, a
    manual rate change at time T with the override flag active suppresses any
    overwrite at a tick whose timestamp lies in (T, T + gracePeriod); and in
    the concrete scenario (gracePeriod 5000 ms, user-selected 5/2, stored
    target 1) a tick at 1000 ms leaves the element at 5/2 while a tick at
    6000 ms writes 1. -/
theorem C1_grace_window :
    (∀ (master : Bool) (now T : ℤ) (rate : ℚ) (videos : List ℚ),
        T < now → now < T + SPEED_CONFIG.gracePeriod →
        (applyPlaybackRateToVideos master now rate
          { lastUserInteractionTimestamp := T, hasUserOverriddenSpeed := true }
          videos).1 = videos)
    ∧ (applyPlaybackRateToVideos true 1000 1
        { lastUserInteractionTimestamp := 0, hasUserOverriddenSpeed := true }
        [5/2]).1 = [5/2]
    ∧ (applyPlaybackRateToVideos true 6000 1
        { lastUserInteractionTimestamp := 0, hasUserOverriddenSpeed := true }
        [5/2]).1 = [1] := by
  refine ⟨?_, ?_, ?_⟩
  · intro master now T rate videos h1 h2
    cases master with
    | false => rfl
    | true =>
      have hg : SPEED_CONFIG.gracePeriod = (5000 : ℤ) := rfl
      have hlt : now - T < SPEED_CONFIG.gracePeriod := by rw [hg] at h2 ⊢; omega
      simp only [applyPlaybackRateToVideos]
      rw [if_neg (by simp)]
      simp [tickVideos_skip now T rate hlt videos]
  · simp [applyPlaybackRateToVideos, tickVideos, enforcerSuppresses, SPEED_CONFIG]
  · have heps : (100 : ℚ)⁻¹ < |5 / 2 - 1| := by norm_num [abs]
    simp [applyPlaybackRateToVideos, tickVideos, enforcerSuppresses,
      SPEED_CONFIG, clampRate_one, heps]

/-- Witness for C1: the concrete in-grace tick of Scenario C, via the
    universal part of the theorem. -/
theorem C1_grace_window_witness :
    (0 : ℤ) < 1000 ∧ (1000 : ℤ) < 0 + SPEED_CONFIG.gracePeriod
    ∧ (applyPlaybackRateToVideos true 1000 1
        { lastUserInteractionTimestamp := 0, hasUserOverriddenSpeed := true }
        [5/2]).1 = [5/2] :=
  ⟨by decide, by decide,
   C1_grace_window.1 true 1000 0 1 [5/2] (by decide) (by decide)⟩

/-- C2 counterexample: at an elapsed time of 4000 ms with an active override,
    the enforcement tick suppresses (4000 < 5000) but the storage-change
    handler does not (4000 is not below its hardcoded 3000 ms window), so the
    two suppression predicates are not equal as functions. -/
theorem C2_counterexample :
    changeBridgeSuppresses
      { lastUserInteractionTimestamp := 0, hasUserOverriddenSpeed := true }
      4000 = false
    ∧ enforcerSuppresses
      { lastUserInteractionTimestamp := 0, hasUserOverriddenSpeed := true }
      4000 = true := by
  constructor <;> decide

/-- C2 amended: the storage-change handler uses a hardcoded 3000 ms window
    rather than SPEED_CONFIG.gracePeriod, so its suppression implies the
    enforcement-tick suppression (3000 is below 5000) without equalling it. -/
theorem C2_handler_implies_enforcer (ist : InteractionState) (now : ℤ)
    (h : changeBridgeSuppresses ist now = true) :
    enforcerSuppresses ist now = true := by
  simp only [changeBridgeSuppresses, Bool.and_eq_true, decide_eq_true_eq] at h
  simp only [enforcerSuppresses, Bool.and_eq_true, decide_eq_true_eq]
  refine ⟨h.1, ?_⟩
  have hg : SPEED_CONFIG.gracePeriod = (5000 : ℤ) := rfl
  rw [hg]
  omega

/-- Witness for C2: a 1000 ms elapsed time is suppressed by both checks. -/
theorem C2_handler_implies_enforcer_witness :
    changeBridgeSuppresses
      { lastUserInteractionTimestamp := 0, hasUserOverriddenSpeed := true }
      1000 = true
    ∧ enforcerSuppresses
      { lastUserInteractionTimestamp := 0, hasUserOverriddenSpeed := true }
      1000 = true :=
  ⟨by decide, C2_handler_implies_enforcer _ 1000 (by decide)⟩

/-- C3: clamp correctness with the two distinct bounds. Every rate a tick
    leaves in the document is an original rate or the clamped target
    max(1/16, min(16, target)), which always lies in [1/16, 16]; and the
    free-form entry accepts a parsed value exactly when it lies in
    [1/10, 16], rejecting unparsable input. -/
theorem C3_clamp_and_custom_range :
    (∀ (master : Bool) (now : ℤ) (rate : ℚ) (ist : InteractionState)
        (videos : List ℚ),
        ∀ w ∈ (applyPlaybackRateToVideos master now rate ist videos).1,
          w ∈ videos ∨ w = clampRate rate)
    ∧ (∀ rate : ℚ, 1/16 ≤ clampRate rate ∧ clampRate rate ≤ 16
        ∧ clampRate rate = max (1/16) (min 16 rate))
    ∧ (∀ parsed : Option ℚ, customInputAccepts parsed = true ↔
        ∃ s, parsed = some s ∧ 1/10 ≤ s ∧ s ≤ 16) := by
  refine ⟨?_, ?_, ?_⟩
  · intro master now rate ist videos w hw
    cases master with
    | false => exact Or.inl hw
    | true =>
      simp only [applyPlaybackRateToVideos] at hw
      rw [if_neg (by simp)] at hw
      exact tickVideos_mem now ist.lastUserInteractionTimestamp rate
        ist.hasUserOverriddenSpeed videos w hw
  · intro rate
    exact ⟨le_max_left _ _, max_le (by norm_num) (min_le_left _ _), rfl⟩
  · intro parsed
    cases parsed with
    | none => simp [customInputAccepts]
    | some s => simp [customInputAccepts, SPEED_CONFIG]

/-- Witness for C3: an element whose tick is suppressed keeps its original
    rate, so it is a member of the original list. -/
theorem C3_clamp_witness :
    (2 : ℚ) ∈ ([2] : List ℚ) ∨ (2 : ℚ) = clampRate 7 :=
  C3_clamp_and_custom_range.1 true 1000 7
    { lastUserInteractionTimestamp := 0, hasUserOverriddenSpeed := true }
    [2] 2 (by decide)

/-- C4: applying a snapshot whose master flag is off removes the master
    marker and every feature marker, clears blur marker and filter from every
    marked image, and forces every video to rate 1, whatever the prior
    document state. -/
theorem C4_master_off_reset (settings : Settings) (doc : Doc)
    (h : settings.masterEnabled = false) :
    (applySettingsImmediately settings doc).1.body = allOffMarkers
    ∧ (applySettingsImmediately settings doc).1.videos
        = doc.videos.map (fun _ => (1 : ℚ))
    ∧ List.Forall₂ (fun b a => b.blurred = true →
          a.blurred = false ∧ a.filterBlur = false)
        doc.images (applySettingsImmediately settings doc).1.images := by
  have hb := applyBodyFlags_master_off settings doc h
  simp only [applySettingsImmediately, hb, h, if_pos]
  exact ⟨trivial, trivial, forall2_unblur doc.images⟩

/-- Witness for C4 at a concrete off snapshot and a document with a blurred
    image and a fast video. -/
theorem C4_master_off_reset_witness :
    (applySettingsImmediately sampleOffSettings sampleDoc).1.body = allOffMarkers
    ∧ (applySettingsImmediately sampleOffSettings sampleDoc).1.videos
        = sampleDoc.videos.map (fun _ => (1 : ℚ))
    ∧ List.Forall₂ (fun b a => b.blurred = true →
          a.blurred = false ∧ a.filterBlur = false)
        sampleDoc.images
        (applySettingsImmediately sampleOffSettings sampleDoc).1.images :=
  C4_master_off_reset sampleOffSettings sampleDoc rfl

/-- C5 counterexample: after applying the default snapshot to a document
    whose body carries every marker, the hideGuide feature marker is absent
    (its default is off), so not all feature markers are present. -/
theorem C5_counterexample :
    (applyBodyFlags DEFAULT_SETTINGS sampleDoc).body.hideGuide = false := by
  decide

/-- C5 amended: applying the default snapshot yields the master marker and
    the six default-on feature markers (hideHome, hideShorts, hideComments,
    hideSidebar, hideEndscreen, hideRecs) present, the hideGuide and
    blurThumbs markers absent, and no blur marker on any image. -/
theorem C5_scenario_a (doc : Doc) :
    (applyBodyFlags DEFAULT_SETTINGS doc).body
      = { master := true, hideHome := true, hideShorts := true,
          hideComments := true, hideSidebar := true, hideEndscreen := true,
          hideRecs := true, hideGuide := false, blurThumbs := false }
    ∧ ((applyBodyFlags DEFAULT_SETTINGS doc).images.all
        fun img => !img.blurred) = true := by
  constructor
  · simp [applyBodyFlags, DEFAULT_SETTINGS, removeThumbnailBlur]
  · simp [applyBodyFlags, DEFAULT_SETTINGS, removeThumbnailBlur,
      List.all_map, unblurImage_blurred]

/-- C6: load never fails. In every backend condition the loader resolves
    with a complete snapshot; reading the fallback tier, a set boolean key
    becomes the comparison with the literal text true, an unset boolean key
    its default, and the rate key is taken from the stored text only when it
    parses (not NaN) to a value strictly greater than 0, resolving to its
    default otherwise. -/
theorem C6_load_total_and_fallback_parsing :
    (∀ (st : FallbackStore) (res : Settings),
        loadSettings (.primaryAvailable res) st = (res, saveToLocalStorageBackup res)
        ∧ loadSettings .primaryError st = (loadFromLocalStorageFallback st, st)
        ∧ loadSettings .primaryUnavailable st = (loadFromLocalStorageFallback st, st)
        ∧ loadSettings .fallbackThrows st = (DEFAULT_SETTINGS, st))
    ∧ (∀ (st : FallbackStore) (k : BoolKey) (s : StoredStr),
        st.boolKey k = some s →
        (loadFromLocalStorageFallback st).boolKey k = s.isTrueLiteral)
    ∧ (∀ (st : FallbackStore) (k : BoolKey),
        st.boolKey k = none →
        (loadFromLocalStorageFallback st).boolKey k = DEFAULT_SETTINGS.boolKey k)
    ∧ (∀ (st : FallbackStore) (s : StoredStr) (q : ℚ),
        st.playbackRate = some s → s.parsesTo = some q → q > 0 →
        (loadFromLocalStorageFallback st).playbackRate = q)
    ∧ (∀ (st : FallbackStore) (s : StoredStr) (q : ℚ),
        st.playbackRate = some s → s.parsesTo = some q → ¬ q > 0 →
        (loadFromLocalStorageFallback st).playbackRate
          = DEFAULT_SETTINGS.playbackRate)
    ∧ (∀ (st : FallbackStore) (s : StoredStr),
        st.playbackRate = some s → s.parsesTo = none →
        (loadFromLocalStorageFallback st).playbackRate
          = DEFAULT_SETTINGS.playbackRate)
    ∧ (∀ st : FallbackStore, st.playbackRate = none →
        (loadFromLocalStorageFallback st).playbackRate
          = DEFAULT_SETTINGS.playbackRate) := by
  refine ⟨?_, ?_, ?_, ?_, ?_, ?_, ?_⟩
  · intro st res
    exact ⟨rfl, rfl, rfl, rfl⟩
  · intro st k s h
    cases k <;>
      (simp only [FallbackStore.boolKey] at h
       simp [loadFromLocalStorageFallback, Settings.boolKey, readBoolKey, h])
  · intro st k h
    cases k <;>
      (simp only [FallbackStore.boolKey] at h
       simp [loadFromLocalStorageFallback, Settings.boolKey, readBoolKey, h])
  · intro st s q h1 h2 h3
    simp [loadFromLocalStorageFallback, readRateKey, h1, h2, h3]
  · intro st s q h1 h2 h3
    simp [loadFromLocalStorageFallback, readRateKey, h1, h2, h3]
  · intro st s h1 h2
    simp [loadFromLocalStorageFallback, readRateKey, h1, h2]
  · intro st h
    simp [loadFromLocalStorageFallback, readRateKey, h]

/-- Witness for C6: a concrete store with a false literal under
    masterEnabled and the text of 3 under playbackRate. -/
theorem C6_load_witness :
    (loadFromLocalStorageFallback sampleStore).boolKey .masterEnabled
      = (boolToStored false).isTrueLiteral
    ∧ (loadFromLocalStorageFallback sampleStore).playbackRate = 3 :=
  ⟨C6_load_total_and_fallback_parsing.2.1 sampleStore .masterEnabled
     (boolToStored false) rfl,
   C6_load_total_and_fallback_parsing.2.2.2.1 sampleStore (numToStored 3) 3
     rfl rfl (by decide)⟩

/-- C7: round trip. Saving any valid snapshot (strictly positive rate) to
    the fallback tier and loading it back is the identity, and loading from
    an entirely unset store yields the defaults. -/
theorem C7_roundtrip :
    (∀ s : Settings, 0 < s.playbackRate →
        loadFromLocalStorageFallback (saveToLocalStorageBackup s) = s)
    ∧ loadFromLocalStorageFallback emptyFallbackStore = DEFAULT_SETTINGS := by
  constructor
  · intro s h
    cases s with
    | mk a b c d e f g i j pr =>
      simp only [saveToLocalStorageBackup, loadFromLocalStorageFallback,
        readBoolKey, readRateKey, boolToStored, numToStored]
      simp at h
      simp [h]
  · rfl

/-- Witness for C7 at a concrete valid snapshot. -/
theorem C7_roundtrip_witness :
    0 < sampleSnapshot.playbackRate
    ∧ loadFromLocalStorageFallback (saveToLocalStorageBackup sampleSnapshot)
        = sampleSnapshot :=
  ⟨by decide, C7_roundtrip.1 sampleSnapshot (by decide)⟩

/-- C8: idempotence of reconciliation. Applying the body flags twice with
    the same snapshot leaves exactly the marker set of a single application
    on the top-level node, for every snapshot and prior marker state. -/
theorem C8_reconcile_idempotent (settings : Settings) (doc : Doc) :
    (applyBodyFlags settings (applyBodyFlags settings doc)).body
      = (applyBodyFlags settings doc).body := by
  simp only [applyBodyFlags]
  split_ifs <;> simp [applyThumbnailBlur, removeThumbnailBlur]

/-- C9 counterexample: a manual selection of 5/2 over the default snapshot
    overwrites the playbackRate field of the existing snapshot in place,
    leaving every other field intact — the snapshot is neither unchanged nor
    replaced by a newly loaded one. -/
theorem C9_counterexample :
    (setVideoSpeed 0 (5/2) DEFAULT_SETTINGS
        { lastUserInteractionTimestamp := 0, hasUserOverriddenSpeed := false }
        [1]).1
      = { DEFAULT_SETTINGS with playbackRate := 5/2 }
    ∧ (setVideoSpeed 0 (5/2) DEFAULT_SETTINGS
        { lastUserInteractionTimestamp := 0, hasUserOverriddenSpeed := false }
        [1]).1 ≠ DEFAULT_SETTINGS := by
  have hle : ¬ ((5/2 : ℚ) ≤ 0) := by norm_num
  constructor
  · simp [setVideoSpeed, hle]
  · simp [setVideoSpeed, hle, DEFAULT_SETTINGS, Settings.mk.injEq]
    norm_num

/-- C9 amended: the snapshot is never partially mutated except in its
    playbackRate field — setVideoSpeed either leaves the snapshot unchanged
    or overwrites exactly playbackRate with the selected speed, and
    applySettingsImmediately either leaves it unchanged or overwrites exactly
    playbackRate with the live video rate. -/
theorem C9_rate_only_mutation :
    (∀ (now : ℤ) (speed : ℚ) (settings : Settings) (ist : InteractionState)
        (videos : List ℚ),
        (setVideoSpeed now speed settings ist videos).1 = settings
        ∨ (setVideoSpeed now speed settings ist videos).1
            = { settings with playbackRate := speed })
    ∧ (∀ (settings : Settings) (doc : Doc),
        (applySettingsImmediately settings doc).2 = settings
        ∨ ∃ v : ℚ, (applySettingsImmediately settings doc).2
            = { settings with playbackRate := v }) := by
  constructor
  · intro now speed settings ist videos
    cases videos with
    | nil => exact Or.inl rfl
    | cons v rest =>
      by_cases h : speed ≤ 0
      · exact Or.inl (by simp [setVideoSpeed, h])
      · exact Or.inr (by simp [setVideoSpeed, h])
  · intro settings doc
    simp only [applySettingsImmediately]
    by_cases h : settings.masterEnabled = false
    · rw [if_pos h]
      exact Or.inl rfl
    · rw [if_neg h]
      cases hv : (applyBodyFlags settings doc).videos with
      | nil => exact Or.inl rfl
      | cons v rest =>
        by_cases h2 : settings.playbackRate ≠ 0 ∧ settings.playbackRate ≠ 1
        · left
          simp [if_pos h2]
        · right
          refine ⟨v, ?_⟩
          simp [if_neg h2]

/-- C10: epsilon frame property. With the master flag on and no grace
    suppression, a tick over elements all within 1/100 of the clamped target
    changes neither the video rates nor the interaction state; and the
    override flag is cleared by a tick only when the tick actually changed
    some video rate. -/
theorem C10_epsilon_frame :
    (∀ (now lastTS : ℤ) (rate : ℚ) (ov : Bool) (videos : List ℚ),
        enforcerSuppresses
          { lastUserInteractionTimestamp := lastTS,
            hasUserOverriddenSpeed := ov } now = false →
        (∀ v ∈ videos, |v - clampRate rate| ≤ 1/100) →
        applyPlaybackRateToVideos true now rate
          { lastUserInteractionTimestamp := lastTS,
            hasUserOverriddenSpeed := ov } videos
          = (videos,
             { lastUserInteractionTimestamp := lastTS,
               hasUserOverriddenSpeed := ov }))
    ∧ (∀ (now lastTS : ℤ) (rate : ℚ) (videos : List ℚ),
        (applyPlaybackRateToVideos true now rate
          { lastUserInteractionTimestamp := lastTS,
            hasUserOverriddenSpeed := true }
          videos).2.hasUserOverriddenSpeed = false →
        (applyPlaybackRateToVideos true now rate
          { lastUserInteractionTimestamp := lastTS,
            hasUserOverriddenSpeed := true }
          videos).1 ≠ videos) := by
  constructor
  · intro now lastTS rate ov videos hs hcl
    have hcl2 : ∀ v ∈ videos, ¬ (|v - clampRate rate| > 1/100) :=
      fun v hv => not_lt.mpr (hcl v hv)
    simp only [applyPlaybackRateToVideos]
    rw [if_neg (by simp)]
    simp [tickVideos_noop now lastTS rate ov videos hs hcl2]
  · intro now lastTS rate videos hflag
    simp only [applyPlaybackRateToVideos] at hflag ⊢
    rw [if_neg (by simp)] at hflag ⊢
    simp only at hflag
    exact tickVideos_clear_means_write now lastTS rate true videos hflag rfl

/-- Witness for C10: an out-of-grace tick over an empty element list is a
    no-op on state. -/
theorem C10_epsilon_frame_witness :
    enforcerSuppresses
      { lastUserInteractionTimestamp := 0, hasUserOverriddenSpeed := true }
      6000 = false
    ∧ applyPlaybackRateToVideos true 6000 1
        { lastUserInteractionTimestamp := 0, hasUserOverriddenSpeed := true }
        []
        = ([], { lastUserInteractionTimestamp := 0,
                 hasUserOverriddenSpeed := true }) :=
  ⟨by decide, C10_epsilon_frame.1 6000 0 1 true [] (by decide) (by simp)⟩
